import Mathlib

/-!
Shallow embedding of the Kudu C++ client layer (`src/client/client.cc`)
and of the resettable-heartbeater semantics, together with theorems that
check the natural-language specification against the code.

Modelling conventions:
* `Status` mirrors `kudu::Status`, keeping only the status kind and the
  first message string.
* Instants of `MonoTime` are modelled as `Nat` nanoseconds since an
  arbitrary epoch; `MonoDelta::ToNanoseconds` is then plain subtraction,
  and `usleep(w)` advances the clock by `w * 1000` nanoseconds.
* Fatal `CHECK` macros abort the process; model functions that can hit a
  `CHECK` return `Except String _`, where `.error` is the abort.
* Loops whose termination depends on the clock take an explicit fuel
  argument and return `none` when the fuel runs out.
-/

namespace KuduClientSpec

/-- Model of `kudu::Status`: the status kind plus its first message. -/
inductive Status where
  | ok
  | timedOut (msg : String)
  | illegalState (msg : String)
  | invalidArgument (msg : String)
  | notFound (msg : String)
  deriving Repr, DecidableEq

/-- Result of one invocation of the function polled by `RetryFunc`:
the returned status, the value left in the `retry` out-parameter, and the
wall-clock duration of the attempt in nanoseconds. -/
structure FuncResult where
  status : Status
  retry : Bool
  dur : Nat
  deriving Repr, DecidableEq

/-- The `while (1)` loop of `RetryFunc` (client.cc lines 80-104),
embedded with an explicit clock and fuel.

Arguments after the fixed ones: fuel, attempt index `i` (the polled
function is modelled as a function of the attempt index), current clock
`now` (ns), current `wait_time` (the unit C++ hands to `usleep`, i.e.
microseconds), and the list of sleeps performed so far (in `usleep`
units).  Returns the final status, the total number of invocations of
`f`, and the sleep list; `none` means the fuel ran out.

Faithful to the source, `timeout_usec` is computed with `ToNanoseconds`
(here: plain `Nat` differences of nanosecond instants), while the
subsequent `usleep(wait_time)` interprets the minimum in microseconds. -/
def retryLoop (f : Nat → FuncResult) (deadline : Nat) (timeout_msg : String) :
    Nat → Nat → Nat → Nat → List Nat → Option (Status × Nat × List Nat)
  | 0, _, _, _, _ => none
  | fuel + 1, i, now, wait_time, sleeps =>
    let r := f i
    if r.retry = false then
      some (r.status, i + 1, sleeps)
    else
      let now2 := now + r.dur
      if deadline ≤ now2 then
        some (Status.timedOut timeout_msg, i + 1, sleeps)
      else
        let timeout_usec : Int := (deadline : Int) - (now2 : Int) - (r.dur : Int)
        if 0 < timeout_usec then
          let wt2 := min (wait_time * 5 / 4) timeout_usec.toNat
          retryLoop f deadline timeout_msg fuel (i + 1) (now2 + wt2 * 1000) wt2
            (sleeps ++ [wt2])
        else
          retryLoop f deadline timeout_msg fuel (i + 1) now2 wait_time sleeps

/-- `RetryFunc` (client.cc lines 71-105): entry check against the
deadline, then the retry loop with `wait_time` starting at 1000 (the
value passed to `usleep`, hence 1 ms).  `retry_msg` is only logged by
the source and does not influence behaviour. -/
def RetryFunc (f : Nat → FuncResult) (retry_msg timeout_msg : String)
    (deadline now0 fuel : Nat) : Option (Status × Nat × List Nat) :=
  if deadline ≤ now0 then
    some (Status.timedOut timeout_msg, 0, [])
  else
    retryLoop f deadline timeout_msg fuel 0 now0 1000 []

/-- Variant of `retryLoop` following the spec's words instead of the
source: "both operands in the same time unit as the sleep", i.e.
`timeout_usec` is computed from microsecond conversions of the two
deltas (`ToMicroseconds`, modelled as division of the nanosecond delta
by 1000).  Used only to compare against `retryLoop`. -/
def retryLoopSpecUnits (f : Nat → FuncResult) (deadline : Nat) (timeout_msg : String) :
    Nat → Nat → Nat → Nat → List Nat → Option (Status × Nat × List Nat)
  | 0, _, _, _, _ => none
  | fuel + 1, i, now, wait_time, sleeps =>
    let r := f i
    if r.retry = false then
      some (r.status, i + 1, sleeps)
    else
      let now2 := now + r.dur
      if deadline ≤ now2 then
        some (Status.timedOut timeout_msg, i + 1, sleeps)
      else
        let timeout_usec : Int :=
          ((deadline : Int) - (now2 : Int)) / 1000 - (r.dur : Int) / 1000
        if 0 < timeout_usec then
          let wt2 := min (wait_time * 5 / 4) timeout_usec.toNat
          retryLoopSpecUnits f deadline timeout_msg fuel (i + 1) (now2 + wt2 * 1000) wt2
            (sleeps ++ [wt2])
        else
          retryLoopSpecUnits f deadline timeout_msg fuel (i + 1) now2 wait_time sleeps

/-- `RetryFunc` over the spec-units loop. -/
def RetryFuncSpecUnits (f : Nat → FuncResult) (retry_msg timeout_msg : String)
    (deadline now0 fuel : Nat) : Option (Status × Nat × List Nat) :=
  if deadline ≤ now0 then
    some (Status.timedOut timeout_msg, 0, [])
  else
    retryLoopSpecUnits f deadline timeout_msg fuel 0 now0 1000 []

/-- A polled function that always requests retry, returns in no time. -/
def alwaysRetryFunc : Nat → FuncResult := fun _ => ⟨Status.ok, true, 0⟩

/-! ## Write session (`KuduSession`, client.cc lines 451-574) -/

/-- `KuduSession::FlushMode`, modelled by its underlying integer value so
that `tight_enum_test` (a numeric range check generated by
`MAKE_ENUM_LIMITS(FlushMode, AUTO_FLUSH_SYNC, MANUAL_FLUSH)`) can be
expressed on out-of-range arguments. -/
abbrev FlushMode := Nat

def AUTO_FLUSH_SYNC : FlushMode := 0

def AUTO_FLUSH_BACKGROUND : FlushMode := 1

def MANUAL_FLUSH : FlushMode := 2

/-- `tight_enum_test<FlushMode>(m)`: the value lies between
`AUTO_FLUSH_SYNC` and `MANUAL_FLUSH`. -/
def tight_enum_test (m : FlushMode) : Bool := m ≤ MANUAL_FLUSH

/-- A mutation (`Insert`): all the session code inspects is whether the
row's key columns are fully set (`insert->row().IsKeySet()`). -/
structure Insert where
  keySet : Bool
  deriving Repr, DecidableEq

/-- Modelled from the spec: the `Batcher` lives in `client/batcher.cc`,
which is not part of the covered source; the spec describes it as "a
bounded accumulator of mutations" with `Add`, `HasPendingOperations`,
`CountBufferedOperations` and an asynchronous flush.  We keep its
identity (`id`, standing for the C++ object pointer), its buffered
mutations, and whether its flush has completed. -/
structure Batcher where
  id : Nat
  timeout_ms : Nat
  ops : List Insert
  done : Bool
  deriving Repr, DecidableEq

/-- Modelled from the spec: a batcher has pending operations while it
holds mutations whose flush has not completed. -/
def Batcher.hasPendingOps (b : Batcher) : Bool :=
  !b.ops.isEmpty && !b.done

/-- Modelled from the spec: the number of buffered mutations. -/
def Batcher.countBufferedOps (b : Batcher) : Nat := b.ops.length

/-- `KuduSession` state: flush mode, per-session timeout, the current
batcher, and the in-flight (`flushed_batchers_`) set, modelled as a list
of the batcher values captured at rotation time. -/
structure KuduSession where
  flush_mode : FlushMode
  timeout_ms : Nat
  batcher : Batcher
  flushed_batchers : List Batcher
  deriving Repr, DecidableEq

/-- `KuduSession::Init` (line 465): a fresh session with a new empty
current batcher and an empty in-flight set.  The constructor defaults
`flush_mode_` to `AUTO_FLUSH_SYNC` and `timeout_ms_` to 0. -/
def KuduSession.init (fresh : Nat) : KuduSession :=
  { flush_mode := AUTO_FLUSH_SYNC
    timeout_ms := 0
    batcher := { id := fresh, timeout_ms := 0, ops := [], done := false }
    flushed_batchers := [] }

/-- `KuduSession::SetFlushMode` (lines 484-496): `IllegalState` when the
current batcher has pending operations (checked first, whatever `m`
is), `InvalidArgument` when `m` fails `tight_enum_test`, otherwise the
mode is updated.  Returns the status together with the session state
after the call. -/
def KuduSession.setFlushMode (s : KuduSession) (m : FlushMode) :
    Status × KuduSession :=
  if s.batcher.hasPendingOps then
    (Status.illegalState "Cannot change flush mode when writes are buffered", s)
  else if tight_enum_test m = false then
    (Status.invalidArgument "Bad flush mode", s)
  else
    (Status.ok, { s with flush_mode := m })

/-- `KuduSession::NewBatcher` (lines 471-482): installs a fresh batcher
(with the session timeout) as current and returns the previous one. -/
def KuduSession.newBatcher (s : KuduSession) (fresh : Nat) :
    KuduSession × Batcher :=
  ({ s with batcher := { id := fresh, timeout_ms := s.timeout_ms, ops := [], done := false } },
   s.batcher)

/-- `KuduSession::FlushAsync` (lines 525-541).  The function opens with
`CHECK_EQ(flush_mode_, MANUAL_FLUSH)`, a fatal abort in any other mode
(modelled as `.error`).  Otherwise it rotates the batcher under the
lock — fresh batcher in, previous batcher into `flushed_batchers_` —
and returns the new session state together with the previous batcher,
on which the source then invokes `Batcher::FlushAsync` outside the
lock. -/
def KuduSession.flushAsync (s : KuduSession) (fresh : Nat) :
    Except String (KuduSession × Batcher) :=
  if s.flush_mode ≠ MANUAL_FLUSH then
    Except.error "Check failed: flush_mode_ == MANUAL_FLUSH"
  else
    let (s2, old) := s.newBatcher fresh
    Except.ok ({ s2 with flushed_batchers := old :: s2.flushed_batchers }, old)

/-- `KuduSession::FlushFinished` (lines 543-546): erases the batcher
from the in-flight set; `CHECK_EQ(flushed_batchers_.erase(batcher), 1)`
aborts when it was not present. -/
def KuduSession.flushFinished (s : KuduSession) (b : Batcher) :
    Except String KuduSession :=
  if s.flushed_batchers.any (fun x => x.id = b.id) then
    Except.ok { s with
      flushed_batchers := s.flushed_batchers.filter (fun x => x.id ≠ b.id) }
  else
    Except.error "Check failed: flushed_batchers_.erase(batcher) == 1"

/-- `KuduSession::HasPendingOperations` (lines 548-559): the current
batcher or any in-flight batcher has pending operations. -/
def KuduSession.hasPendingOperations (s : KuduSession) : Bool :=
  s.batcher.hasPendingOps || s.flushed_batchers.any (fun b => b.hasPendingOps)

/-- `KuduSession::CountBufferedOperations` (lines 561-566):
`CHECK_EQ(flush_mode_, MANUAL_FLUSH)`, then the current batcher's
buffered count. -/
def KuduSession.countBufferedOperations (s : KuduSession) :
    Except String Nat :=
  if s.flush_mode ≠ MANUAL_FLUSH then
    Except.error "Check failed: flush_mode_ == MANUAL_FLUSH"
  else
    Except.ok s.batcher.countBufferedOps

/-- `KuduSession::Flush` (lines 519-523): `FlushAsync` on a one-shot
synchronizer, then `Wait`.  The eventual status of the batch — decided
by the servers — is the external input `flushOutcome`; completion of
the batch triggers `FlushFinished` on the rotated-out batcher. -/
def KuduSession.flush (s : KuduSession) (fresh : Nat) (flushOutcome : Status) :
    Except String (Status × KuduSession) :=
  match s.flushAsync fresh with
  | Except.error e => Except.error e
  | Except.ok (s2, old) =>
    match s2.flushFinished old with
    | Except.error e => Except.error e
    | Except.ok s3 => Except.ok (flushOutcome, s3)

/-- `KuduSession::Apply` (lines 504-517): `IllegalState` when the key is
not set (the mutation is not handed to the batcher); otherwise the
mutation is added to the current batcher, and in `AUTO_FLUSH_SYNC` mode
`Flush` is invoked and its status returned (`RETURN_NOT_OK(Flush())`
followed by `return Status::OK()`); in other modes `OK` is returned with
the mutation left buffered. -/
def KuduSession.applyOp (s : KuduSession) (ins : Insert) (fresh : Nat)
    (flushOutcome : Status) : Except String (Status × KuduSession) :=
  if ins.keySet = false then
    Except.ok (Status.illegalState "Key not specified", s)
  else
    let s2 := { s with batcher := { s.batcher with ops := s.batcher.ops ++ [ins] } }
    if s2.flush_mode = AUTO_FLUSH_SYNC then
      s2.flush fresh flushOutcome
    else
      Except.ok (Status.ok, s2)

/-! ## Alter-table builder and `KuduClient::AlterTable` -/

/-- One schema-mutation step of `AlterTableRequestPB`. -/
inductive AlterStep where
  | addColumn (name : String) (nullable : Bool)
  | dropColumn (name : String)
  | renameColumn (old_name new_name : String)
  deriving Repr, DecidableEq

/-- The fields of `AlterTableRequestPB` that `AlterTableBuilder` and
`KuduClient::AlterTable` read: the optional new table name and the list
of alter steps. -/
structure AlterTableRequestPB where
  new_table_name : Option String
  alter_schema_steps : List AlterStep
  deriving Repr, DecidableEq

/-- `AlterTableBuilder` owns exactly an `AlterTableRequestPB`
(`alter_steps_`). -/
abbrev AlterTableBuilder := AlterTableRequestPB

/-- A fresh builder: empty request. -/
def AlterTableBuilder.mk' : AlterTableBuilder :=
  { new_table_name := none, alter_schema_steps := [] }

/-- `AlterTableBuilder::Reset` (lines 598-600): clears
`alter_schema_steps`; the `new_table_name` field is not touched. -/
def AlterTableBuilder.reset (a : AlterTableBuilder) : AlterTableBuilder :=
  { a with alter_schema_steps := [] }

/-- `AlterTableBuilder::has_changes` (lines 602-605). -/
def AlterTableBuilder.has_changes (a : AlterTableBuilder) : Bool :=
  a.new_table_name.isSome || a.alter_schema_steps.length > 0

/-- `AlterTableBuilder::RenameTable` (lines 607-610): sets
`new_table_name`, returns OK. -/
def AlterTableBuilder.renameTable (a : AlterTableBuilder) (new_name : String) :
    AlterTableBuilder × Status :=
  ({ a with new_table_name := some new_name }, Status.ok)

/-- `AlterTableBuilder::AddColumn` (lines 612-626): a non-nullable
column requires a default value; without one, `InvalidArgument` and no
step is added. -/
def AlterTableBuilder.addColumn (a : AlterTableBuilder) (name : String)
    (has_default : Bool) : AlterTableBuilder × Status :=
  if has_default = false then
    (a, Status.invalidArgument "A new column must have a default value")
  else
    ({ a with alter_schema_steps := a.alter_schema_steps ++ [AlterStep.addColumn name false] },
     Status.ok)

/-- `AlterTableBuilder::DropColumn` (lines 638-643). -/
def AlterTableBuilder.dropColumn (a : AlterTableBuilder) (name : String) :
    AlterTableBuilder × Status :=
  ({ a with alter_schema_steps := a.alter_schema_steps ++ [AlterStep.dropColumn name] },
   Status.ok)

/-- Outcome of `KuduClient::AlterTable` as far as the master is
concerned: either it returns a status without issuing any RPC, or it
issues the alter RPC and, on success, polls `IsAlterTableDone` under
`probe_table_name`. -/
inductive AlterTableCall where
  | noRpc (st : Status)
  | rpcIssued (probe_table_name : String)
  deriving Repr, DecidableEq

/-- `KuduClient::AlterTable` (lines 234-262): `InvalidArgument` before
any RPC when `!alter.has_changes()`; otherwise the RPC is issued and the
completion probe uses `req.new_table_name()` when set, else the old
`table_name` (line 255). -/
def KuduClient.alterTable (table_name : String) (alter : AlterTableBuilder) :
    AlterTableCall :=
  if alter.has_changes = false then
    AlterTableCall.noRpc (Status.invalidArgument "No alter steps provided")
  else
    AlterTableCall.rpcIssued
      (match alter.new_table_name with
       | some n => n
       | none => table_name)

/-! ## Scanner (`KuduScanner`, client.cc lines 658-786) -/

/-- The fields of `ScanResponsePB` the scanner reads on a successful
`Open` (the error case is handled before any state mutation and is
excluded here). -/
structure ScanResponsePB where
  has_data : Bool
  has_more_results : Bool
  scanner_id : String
  deriving Repr, DecidableEq

/-- `KuduScanner` state: `open_`, `data_in_open_`, the `scanner_id`
stored in `next_req_` (`""` when unset), and the last response. -/
structure KuduScanner where
  open_ : Bool
  data_in_open : Bool
  scanner_id : String
  last_response : ScanResponsePB
  deriving Repr, DecidableEq

/-- A freshly constructed scanner (lines 658-662). -/
def KuduScanner.mk' : KuduScanner :=
  { open_ := false
    data_in_open := false
    scanner_id := ""
    last_response := { has_data := false, has_more_results := false, scanner_id := "" } }

/-- `KuduScanner::Open` (lines 688-713), for the case in which the RPC
succeeds with no embedded error (on failure the source returns before
mutating any of the modelled state).  `CHECK(!open_)` aborts when
already open.  Records `data_in_open_ = response.has_data`, clears the
new-scan request, stores `response.scanner_id` into `next_req_` exactly
when the response advertises more results, and sets `open_`. -/
def KuduScanner.doOpen (s : KuduScanner) (resp : ScanResponsePB) :
    Except String KuduScanner :=
  if s.open_ then
    Except.error "Check failed: !open_"
  else
    Except.ok { s with
      data_in_open := resp.has_data
      last_response := resp
      scanner_id := if resp.has_more_results then resp.scanner_id else ""
      open_ := true }

/-- `KuduScanner::HasMoreRows` (lines 764-767): `CHECK(open_)`, then
`data_in_open_ || last_response_.has_more_results()`. -/
def KuduScanner.hasMoreRows (s : KuduScanner) : Except String Bool :=
  if s.open_ = false then
    Except.error "Check failed: open_"
  else
    Except.ok (s.data_in_open || s.last_response.has_more_results)

/-- `KuduScanner::Close` (lines 734-754): returns the scanner state
after the call together with whether a server RPC was issued.  Not
open: no-op, no RPC.  Open with no scanner id assigned: just clears
`open_`, no RPC.  Otherwise: fires the detached close RPC, clears
`next_req_` and `open_`. -/
def KuduScanner.close (s : KuduScanner) : KuduScanner × Bool :=
  if s.open_ = false then
    (s, false)
  else if s.scanner_id = "" then
    ({ s with open_ := false }, false)
  else
    ({ s with open_ := false, scanner_id := "" }, true)

/-! ## Resettable heartbeater -/

/-- The periodic fire schedule with no resets: armed at `arm`, the
callback fires at `arm + P`, `arm + 2P`, …, listing the fires up to and
including `horizon`. -/
def periodicFires (P arm horizon : Nat) : List Nat :=
  (List.range ((horizon - arm) / P)).map (fun k => arm + (k + 1) * P)

/-- Modelled from the spec: `ResettableHeartbeater` lives in
`util/resettable_heartbeater.cc`, which is not part of the covered
source (only its test is).  Per the spec, "a worker repeatedly waits up
to `period`; when the wait elapses without a reset, the user callback
fires and the worker immediately begins the next wait.  Any `Reset`
call received during a wait causes the wait to restart from zero".

`heartbeatFires P horizon arm resets` lists the instants at which the
callback fires up to `horizon`, when the heartbeater is armed at `arm`
and `Reset` is called at the (sorted) instants `resets`: before the
next reset `r` the callback fires on the periodic schedule (strictly
before `r`), and the reset re-arms the worker at `r`. -/
def heartbeatFires (P horizon : Nat) : Nat → List Nat → List Nat
  | arm, [] => periodicFires P arm horizon
  | arm, r :: rs => periodicFires P arm (min (r - 1) horizon) ++ heartbeatFires P horizon r rs

/-! ## Theorems -/

/-- C10: `AlterTableBuilder::Reset` clears only the accumulated
schema-mutation steps and leaves the new-table-name field unchanged;
after `RenameTable(name)` followed by `Reset`, `has_changes()` is still
true. -/
theorem alterBuilder_reset_keeps_rename (a : AlterTableBuilder) (n : String) :
    (a.reset).new_table_name = a.new_table_name ∧
    (a.reset).alter_schema_steps = [] ∧
    (((a.renameTable n).1).reset).has_changes = true := by
  refine ⟨rfl, rfl, ?_⟩
  simp [AlterTableBuilder.reset, AlterTableBuilder.renameTable, AlterTableBuilder.has_changes]

/-- C7: `AlterTable` returns `InvalidArgument` without issuing any RPC
when `has_changes()` is false; `has_changes()` is true iff the new name
is set or at least one step exists; the completion probe polls under
the new table name when a rename is present, otherwise under the old
name. -/
theorem alterTable_changes_and_probe (tn : String) (a : AlterTableBuilder) :
    (a.has_changes = (a.new_table_name.isSome || decide (0 < a.alter_schema_steps.length))) ∧
    (a.has_changes = false →
      KuduClient.alterTable tn a =
        AlterTableCall.noRpc (Status.invalidArgument "No alter steps provided")) ∧
    (∀ n, a.new_table_name = some n →
      KuduClient.alterTable tn a = AlterTableCall.rpcIssued n) ∧
    (a.new_table_name = none → a.alter_schema_steps ≠ [] →
      KuduClient.alterTable tn a = AlterTableCall.rpcIssued tn) := by
  refine ⟨?_, ?_, ?_, ?_⟩
  · simp [AlterTableBuilder.has_changes]
  · intro h
    simp [KuduClient.alterTable, h]
  · intro n hn
    have hc : a.has_changes = true := by
      simp [AlterTableBuilder.has_changes, hn]
    simp [KuduClient.alterTable, hc, hn]
  · intro hn hs
    have hc : a.has_changes = true := by
      simp [AlterTableBuilder.has_changes, hn]
      exact List.length_pos.mpr hs
    simp [KuduClient.alterTable, hc, hn]

/-- C7 witness: concrete instances — an empty builder issues no RPC, a
rename-only builder probes the new name, a drop-only builder probes the
old name. -/
theorem alterTable_changes_and_probe_witness :
    KuduClient.alterTable "t" AlterTableBuilder.mk' =
      AlterTableCall.noRpc (Status.invalidArgument "No alter steps provided") ∧
    KuduClient.alterTable "t" (AlterTableBuilder.mk'.renameTable "u").1 =
      AlterTableCall.rpcIssued "u" ∧
    KuduClient.alterTable "t" (AlterTableBuilder.mk'.dropColumn "c").1 =
      AlterTableCall.rpcIssued "t" :=
  ⟨(alterTable_changes_and_probe "t" AlterTableBuilder.mk').2.1 rfl,
   (alterTable_changes_and_probe "t" (AlterTableBuilder.mk'.renameTable "u").1).2.2.1 "u" rfl,
   (alterTable_changes_and_probe "t" (AlterTableBuilder.mk'.dropColumn "c").1).2.2.2 rfl
     (by decide)⟩

/-- C8: `Apply` on a mutation whose key columns are not fully set
returns `IllegalState` as an ordinary status, and the session state is
unchanged (the mutation is not handed to the batcher). -/
theorem apply_unset_key_illegal_state (s : KuduSession) (ins : Insert)
    (fresh : Nat) (fo : Status) (h : ins.keySet = false) :
    s.applyOp ins fresh fo =
      Except.ok (Status.illegalState "Key not specified", s) := by
  simp [KuduSession.applyOp, h]

/-- C8 witness: a keyless insert applied to a fresh session. -/
theorem apply_unset_key_illegal_state_witness :
    (KuduSession.init 0).applyOp { keySet := false } 1 Status.ok =
      Except.ok (Status.illegalState "Key not specified", KuduSession.init 0) :=
  apply_unset_key_illegal_state (KuduSession.init 0) { keySet := false } 1 Status.ok rfl

/-- C4: when `Open` succeeds with a response carrying no data and
advertising no more results, `HasMoreRows` is false and `Close` issues
no server RPC, merely clearing `open_`; `Close` on a scanner that is
not open is a no-op. -/
theorem scanner_empty_scan_close (s0 : KuduScanner) (resp : ScanResponsePB)
    (hopen : s0.open_ = false) (hd : resp.has_data = false)
    (hm : resp.has_more_results = false) :
    ∃ s1, s0.doOpen resp = Except.ok s1 ∧
      s1.hasMoreRows = Except.ok false ∧
      s1.close = ({ s1 with open_ := false }, false) ∧
      ∀ t : KuduScanner, t.open_ = false → t.close = (t, false) := by
  refine ⟨{ s0 with
      data_in_open := resp.has_data
      last_response := resp
      scanner_id := if resp.has_more_results then resp.scanner_id else ""
      open_ := true }, ?_, ?_, ?_, ?_⟩
  · simp [KuduScanner.doOpen, hopen]
  · simp [KuduScanner.hasMoreRows, hd, hm]
  · simp [KuduScanner.close, hm]
  · intro t ht
    simp [KuduScanner.close, ht]

/-- C4 witness: a fresh scanner opened on an empty response. -/
theorem scanner_empty_scan_close_witness :
    ∃ s1, KuduScanner.mk'.doOpen
        { has_data := false, has_more_results := false, scanner_id := "" } =
        Except.ok s1 ∧
      s1.hasMoreRows = Except.ok false ∧
      s1.close = ({ s1 with open_ := false }, false) ∧
      ∀ t : KuduScanner, t.open_ = false → t.close = (t, false) :=
  scanner_empty_scan_close KuduScanner.mk'
    { has_data := false, has_more_results := false, scanner_id := "" } rfl rfl rfl

/-- C1: the claimed `AutoFlushSync` behaviour of `Apply` is unreachable
in this code: on a fresh session (whose flush mode defaults to
`AUTO_FLUSH_SYNC`), applying a mutation with its key set reaches
`Flush` → `FlushAsync`, whose `CHECK_EQ(flush_mode_, MANUAL_FLUSH)`
aborts the process instead of flushing and returning the flush
status. -/
theorem autoFlushSync_apply_hits_check :
    (KuduSession.init 0).flush_mode = AUTO_FLUSH_SYNC ∧
    (KuduSession.init 0).applyOp { keySet := true } 1 Status.ok =
      Except.error "Check failed: flush_mode_ == MANUAL_FLUSH" := by
  exact ⟨rfl, rfl⟩

/-- C3: the source computes the sleep bound in nanoseconds
(`ToNanoseconds`) but feeds the resulting minimum to `usleep`, which
takes microseconds: with 2000 ns (2 µs) left until the deadline and a
zero-duration attempt, the code sleeps 1250 µs — 625 times the
remaining time — whereas with both operands converted to the sleep's
unit (microseconds) it would sleep 2 µs. -/
theorem retryFunc_sleep_unit_mismatch :
    RetryFunc alwaysRetryFunc "retrying" "timed out" 2000 0 10 =
      some (Status.timedOut "timed out", 2, [1250]) ∧
    RetryFuncSpecUnits alwaysRetryFunc "retrying" "timed out" 2000 0 10 =
      some (Status.timedOut "timed out", 2, [2]) := by
  exact ⟨rfl, rfl⟩

/-- C6 counterexample: `SetFlushMode` checks
`batcher_->HasPendingOperations()` before even looking at the mode
argument, so with one mutation buffered in a `MANUAL_FLUSH` session,
re-setting the very same mode also fails `IllegalState` — the claim
says it succeeds. -/
theorem setFlushMode_same_mode_fails :
    (KuduSession.setFlushMode
      { flush_mode := MANUAL_FLUSH
        timeout_ms := 0
        batcher := { id := 0, timeout_ms := 0, ops := [{ keySet := true }], done := false }
        flushed_batchers := [] } MANUAL_FLUSH).1 =
      Status.illegalState "Cannot change flush mode when writes are buffered" ∧
    (KuduSession.setFlushMode
      { flush_mode := MANUAL_FLUSH
        timeout_ms := 0
        batcher := { id := 0, timeout_ms := 0, ops := [{ keySet := true }], done := false }
        flushed_batchers := [] } MANUAL_FLUSH).1 ≠ Status.ok := by
  exact ⟨rfl, by decide⟩

/-- C6 amended: `SetFlushMode` fails `IllegalState` whenever any
operation is buffered in the current batcher, regardless of the mode
argument (re-setting the current mode included); with nothing buffered
it fails `InvalidArgument` on an out-of-range mode and otherwise
updates the flush mode, leaving the rest of the session unchanged. -/
theorem setFlushMode_contract (s : KuduSession) (m : FlushMode) :
    (s.batcher.hasPendingOps = true →
      s.setFlushMode m =
        (Status.illegalState "Cannot change flush mode when writes are buffered", s)) ∧
    (s.batcher.hasPendingOps = false → tight_enum_test m = false →
      s.setFlushMode m = (Status.invalidArgument "Bad flush mode", s)) ∧
    (s.batcher.hasPendingOps = false → tight_enum_test m = true →
      s.setFlushMode m = (Status.ok, { s with flush_mode := m })) := by
  refine ⟨?_, ?_, ?_⟩
  · intro h
    simp [KuduSession.setFlushMode, h]
  · intro h hm
    simp [KuduSession.setFlushMode, h, hm]
  · intro h hm
    simp [KuduSession.setFlushMode, h, hm]

/-- C6 witness: with a buffered op both `MANUAL_FLUSH` and
`AUTO_FLUSH_SYNC` fail `IllegalState`; with an empty batcher an
out-of-range mode fails `InvalidArgument` and `AUTO_FLUSH_SYNC`
succeeds. -/
theorem setFlushMode_contract_witness :
    (KuduSession.setFlushMode
        { flush_mode := MANUAL_FLUSH
          timeout_ms := 0
          batcher := { id := 0, timeout_ms := 0, ops := [{ keySet := true }], done := false }
          flushed_batchers := [] } AUTO_FLUSH_SYNC =
      (Status.illegalState "Cannot change flush mode when writes are buffered",
        { flush_mode := MANUAL_FLUSH
          timeout_ms := 0
          batcher := { id := 0, timeout_ms := 0, ops := [{ keySet := true }], done := false }
          flushed_batchers := [] })) ∧
    (KuduSession.setFlushMode (KuduSession.init 0) 7 =
      (Status.invalidArgument "Bad flush mode", KuduSession.init 0)) ∧
    (KuduSession.setFlushMode (KuduSession.init 0) MANUAL_FLUSH =
      (Status.ok, { KuduSession.init 0 with flush_mode := MANUAL_FLUSH })) :=
  ⟨(setFlushMode_contract _ AUTO_FLUSH_SYNC).1 (by decide),
   (setFlushMode_contract (KuduSession.init 0) 7).2.1 (by decide) (by decide),
   (setFlushMode_contract (KuduSession.init 0) MANUAL_FLUSH).2.2 (by decide) (by decide)⟩

/-- C5 counterexample: the claim quantifies over every session, but
`FlushAsync` opens with `CHECK_EQ(flush_mode_, MANUAL_FLUSH)`: on a
fresh session (default mode `AUTO_FLUSH_SYNC`) it aborts instead of
rotating the batcher. -/
theorem flushAsync_auto_mode_aborts :
    KuduSession.flushAsync (KuduSession.init 0) 1 =
      Except.error "Check failed: flush_mode_ == MANUAL_FLUSH" := by
  exact rfl

/-- C5 amended: for every session in `MANUAL_FLUSH` mode, `FlushAsync`
installs a fresh batcher as current (so `CountBufferedOperations` is 0
immediately afterwards) and inserts the previous batcher into the
in-flight set; while that batcher has pending operations
`HasPendingOperations` stays true; `FlushFinished` removes it from the
in-flight set, which becomes empty when it was the only one. -/
theorem flushAsync_rotation (s : KuduSession) (fresh : Nat)
    (h : s.flush_mode = MANUAL_FLUSH) :
    ∃ s2, s.flushAsync fresh = Except.ok (s2, s.batcher) ∧
      s2.countBufferedOperations = Except.ok 0 ∧
      s.batcher ∈ s2.flushed_batchers ∧
      (s.batcher.hasPendingOps = true → s2.hasPendingOperations = true) ∧
      ∃ s3, s2.flushFinished s.batcher = Except.ok s3 ∧
        (∀ b ∈ s3.flushed_batchers, b.id ≠ s.batcher.id) ∧
        (s.flushed_batchers = [] → s3.flushed_batchers = []) := by
  refine ⟨{ s with
      batcher := { id := fresh, timeout_ms := s.timeout_ms, ops := [], done := false }
      flushed_batchers := s.batcher :: s.flushed_batchers }, ?_, ?_, ?_, ?_, ?_⟩
  · simp [KuduSession.flushAsync, KuduSession.newBatcher, h]
  · simp [KuduSession.countBufferedOperations, Batcher.countBufferedOps, h]
  · exact List.mem_cons_self _ _
  · intro hp
    simp [KuduSession.hasPendingOperations]
    exact Or.inr (Or.inl hp)
  · refine ⟨{ s with
        batcher := { id := fresh, timeout_ms := s.timeout_ms, ops := [], done := false }
        flushed_batchers := s.flushed_batchers.filter (fun x => x.id ≠ s.batcher.id) },
      ?_, ?_, ?_⟩
    · simp [KuduSession.flushFinished]
    · intro b hb
      simp only [List.mem_filter, decide_not] at hb
      simpa using hb.2
    · intro he
      simp [he]

/-- C5 witness: a `MANUAL_FLUSH` session with one buffered op and an
empty in-flight set. -/
theorem flushAsync_rotation_witness :
    ∃ s2, KuduSession.flushAsync
        { flush_mode := MANUAL_FLUSH
          timeout_ms := 0
          batcher := { id := 0, timeout_ms := 0, ops := [{ keySet := true }], done := false }
          flushed_batchers := [] } 1 =
        Except.ok (s2,
          { id := 0, timeout_ms := 0, ops := [{ keySet := true }], done := false }) ∧
      s2.countBufferedOperations = Except.ok 0 ∧
      ({ id := 0, timeout_ms := 0, ops := [{ keySet := true }], done := false } : Batcher)
          ∈ s2.flushed_batchers ∧
      (Batcher.hasPendingOps
          { id := 0, timeout_ms := 0, ops := [{ keySet := true }], done := false } = true →
        s2.hasPendingOperations = true) ∧
      ∃ s3, s2.flushFinished
          { id := 0, timeout_ms := 0, ops := [{ keySet := true }], done := false } =
          Except.ok s3 ∧
        (∀ b ∈ s3.flushed_batchers,
          b.id ≠ (Batcher.id { id := 0, timeout_ms := 0, ops := [{ keySet := true }], done := false })) ∧
        ([] = ([] : List Batcher) → s3.flushed_batchers = []) := by
  exact flushAsync_rotation
    { flush_mode := MANUAL_FLUSH
      timeout_ms := 0
      batcher := { id := 0, timeout_ms := 0, ops := [{ keySet := true }], done := false }
      flushed_batchers := [] } 1 rfl

/-- When the polled function always requests retry, any result the loop
returns is `TimedOut` and records at least one invocation past the
entry index. -/
theorem retryLoop_always_retry_shape (f : Nat → FuncResult) (deadline : Nat)
    (msg : String) (hf : ∀ j, (f j).retry = true) :
    ∀ fuel i now wt acc s n sl,
      retryLoop f deadline msg fuel i now wt acc = some (s, n, sl) →
      s = Status.timedOut msg ∧ i + 1 ≤ n := by
  intro fuel
  induction fuel with
  | zero =>
    intro i now wt acc s n sl h
    simp [retryLoop] at h
  | succ fuel ih =>
    intro i now wt acc s n sl h
    simp only [retryLoop] at h
    rw [if_neg (by simp [hf i])] at h
    split at h
    · rw [Option.some.injEq, Prod.mk.injEq, Prod.mk.injEq] at h
      obtain ⟨h1, h2, h3⟩ := h
      exact ⟨h1.symm, by omega⟩
    · split at h
      · obtain ⟨h1, h2⟩ := ih _ _ _ _ _ _ _ h
        exact ⟨h1, by omega⟩
      · obtain ⟨h1, h2⟩ := ih _ _ _ _ _ _ _ h
        exact ⟨h1, by omega⟩

/-- The loop terminates within the fuel bound: every iteration that
continues advances the clock by at least one nanosecond, so fuel
covering the nanoseconds to the deadline suffices. -/
theorem retryLoop_terminates (f : Nat → FuncResult) (deadline : Nat)
    (msg : String) :
    ∀ fuel i now wt acc, 1 ≤ wt → deadline ≤ now + fuel →
      (retryLoop f deadline msg (fuel + 1) i now wt acc).isSome = true := by
  intro fuel
  induction fuel with
  | zero =>
    intro i now wt acc hwt hle
    simp only [retryLoop]
    split
    · rfl
    · rw [if_pos (by omega)]
      rfl
  | succ fuel ih =>
    intro i now wt acc hwt hle
    simp only [retryLoop]
    split
    · rfl
    · split
      · rfl
      · next hnow =>
        split
        · next htu =>
          apply ih <;> omega
        · next htu =>
          apply ih _ _ _ _ hwt
          omega

/-- C2: `RetryFunc`'s deadline contract: (1) with the deadline already
past at entry it returns `TimedOut(timeout_msg)` having invoked `f`
zero times; (2) whenever `f` is invoked and reports `retry = false`,
the loop returns exactly `f`'s status with no further calls and no
further sleeps; (3) when `f` always requests retry and the deadline is
strictly in the future, `RetryFunc` (given fuel covering the wait)
returns `TimedOut(timeout_msg)`, discarding `f`'s statuses, having
invoked `f` at least once. -/
theorem RetryFunc_deadline_contract (f : Nat → FuncResult)
    (rmsg tmsg : String) (deadline now0 fuel : Nat) :
    (deadline ≤ now0 →
      RetryFunc f rmsg tmsg deadline now0 fuel =
        some (Status.timedOut tmsg, 0, [])) ∧
    (∀ i now wt acc, (f i).retry = false →
      retryLoop f deadline tmsg (fuel + 1) i now wt acc =
        some ((f i).status, i + 1, acc)) ∧
    ((∀ j, (f j).retry = true) → now0 < deadline →
      ∃ n sl, RetryFunc f rmsg tmsg deadline now0 (deadline - now0 + 1) =
          some (Status.timedOut tmsg, n, sl) ∧ 1 ≤ n) := by
  refine ⟨?_, ?_, ?_⟩
  · intro h
    simp [RetryFunc, h]
  · intro i now wt acc h
    rw [retryLoop]
    simp [h]
  · intro hf hlt
    have hterm := retryLoop_terminates f deadline tmsg (deadline - now0) 0 now0 1000 []
      (by omega) (by omega)
    obtain ⟨⟨s, n, sl⟩, hsome⟩ := Option.isSome_iff_exists.mp hterm
    obtain ⟨hs, hn⟩ :=
      retryLoop_always_retry_shape f deadline tmsg hf _ 0 now0 1000 [] s n sl hsome
    refine ⟨n, sl, ?_, by omega⟩
    rw [RetryFunc, if_neg (by omega)]
    rw [hsome, hs]

/-- C2 witness: with the deadline in the past `f` is never invoked; on
an always-retrying `f` with the deadline 2000 ns ahead, `RetryFunc`
times out after at least one invocation. -/
theorem RetryFunc_deadline_contract_witness :
    (RetryFunc alwaysRetryFunc "retrying" "timed out" 5 10 3 =
      some (Status.timedOut "timed out", 0, [])) ∧
    (∃ n sl, RetryFunc alwaysRetryFunc "retrying" "timed out" 2000 0 (2000 - 0 + 1) =
        some (Status.timedOut "timed out", n, sl) ∧ 1 ≤ n) :=
  ⟨(RetryFunc_deadline_contract alwaysRetryFunc "retrying" "timed out" 5 10 3).1
      (by omega),
   (RetryFunc_deadline_contract alwaysRetryFunc "retrying" "timed out" 2000 0 0).2.2
      (fun j => rfl) (by omega)⟩

/-- The periodic schedule is empty while less than one period has room
before the horizon. -/
theorem periodicFires_eq_nil (P arm horizon : Nat) (h : horizon - arm < P) :
    periodicFires P arm horizon = [] := by
  simp [periodicFires, Nat.div_eq_of_lt h]

/-- C9: with resets issued so that each reset (and the first one after
arming) comes strictly less than one period after the previous arming
instant, the user callback never fires during the reset regime: the
fire schedule is exactly the periodic schedule re-armed at the most
recent reset, so every fire is at least `P` after the most recent
reset, and once resets cease the callbacks resume at the normal
cadence (`last + P`, `last + 2P`, …, whenever they fit the horizon). -/
theorem heartbeat_reset_suppression (P horizon arm : Nat) (resets : List Nat)
    (hP : 0 < P) (hchain : List.Chain (fun a b => b < a + P) arm resets) :
    heartbeatFires P horizon arm resets =
      periodicFires P (resets.getLastD arm) horizon ∧
    (∀ t ∈ heartbeatFires P horizon arm resets, resets.getLastD arm + P ≤ t) ∧
    (∀ k, (k + 1) * P ≤ horizon - resets.getLastD arm →
      resets.getLastD arm + (k + 1) * P ∈ heartbeatFires P horizon arm resets) := by
  have main : ∀ rs a, List.Chain (fun x y => y < x + P) a rs →
      heartbeatFires P horizon a rs = periodicFires P (rs.getLastD a) horizon := by
    intro rs
    induction rs with
    | nil => intro a _; rfl
    | cons r rs ih =>
      intro a hc
      rcases hc with _ | ⟨hr, hc⟩
      rw [heartbeatFires, ih r hc, List.getLastD_cons]
      have hnil : periodicFires P a (min (r - 1) horizon) = [] := by
        apply periodicFires_eq_nil
        omega
      rw [hnil, List.nil_append]
  have h1 := main resets arm hchain
  refine ⟨h1, ?_, ?_⟩
  · intro t ht
    rw [h1] at ht
    simp only [periodicFires, List.mem_map, List.mem_range] at ht
    obtain ⟨k, _, hk⟩ := ht
    have : P ≤ (k + 1) * P := Nat.le_mul_of_pos_left P (Nat.succ_pos k)
    omega
  · intro k hk
    rw [h1]
    simp only [periodicFires, List.mem_map, List.mem_range]
    refine ⟨k, ?_, rfl⟩
    have : k + 1 ≤ (horizon - resets.getLastD arm) / P :=
      (Nat.le_div_iff_mul_le hP).mpr hk
    omega

/-- C9 witness: period 100, resets every 25 time units; no fire before
175, and fires resume at 175, 275, … up to the horizon 400. -/
theorem heartbeat_reset_suppression_witness :
    heartbeatFires 100 400 0 [25, 50, 75] = periodicFires 100 75 400 ∧
    (∀ t ∈ heartbeatFires 100 400 0 [25, 50, 75], 75 + 100 ≤ t) ∧
    75 + (0 + 1) * 100 ∈ heartbeatFires 100 400 0 [25, 50, 75] := by
  have h := heartbeat_reset_suppression 100 400 0 [25, 50, 75] (by decide)
    (List.Chain.cons (by omega) (List.Chain.cons (by omega)
      (List.Chain.cons (by omega) List.Chain.nil)))
  exact ⟨h.1, h.2.1, h.2.2 0 (by decide)⟩

end KuduClientSpec
